import Mathlib

/-!
Shallow embedding of the episode/season management and publish logic of the
admin console (source: `AdminPanel` component).  JavaScript strings are
modelled by `String`, JS numbers holding integral values by `Int`, the JSON
`null` marker by `Option.none`.  `parseInt` is modelled by `jsParseInt`
following the ECMAScript algorithm (whitespace skip, optional sign, optional
hex prefix, longest digit prefix; `none` models `NaN`).  The JS array `sort`
with the comparator `(a, b) => a.season - b.season || a.number - b.number`
(written as two branches in the source) sorts into an order where consecutive
elements satisfy the comparator non-positively; it is modelled by insertion
sort with the corresponding total preorder `epLe`.
-/

/-- JS whitespace characters skipped by `parseInt` (ASCII whitespace plus the
common Unicode ones: NBSP, BOM, line/paragraph separators). -/
def jsIsWhitespace (c : Char) : Bool :=
  c == ' ' || c == '\t' || c == '\n' || c == '\r' ||
  c.toNat == 0x0B || c.toNat == 0x0C || c.toNat == 0xA0 ||
  c.toNat == 0xFEFF || c.toNat == 0x2028 || c.toNat == 0x2029

/-- Value of one digit character in the given base (10 or 16), `none` if the
character is not a digit of that base. -/
def jsDigitVal (base : Nat) (c : Char) : Option Nat :=
  if '0' ≤ c ∧ c ≤ '9' then some (c.toNat - '0'.toNat)
  else if base = 16 ∧ 'a' ≤ c ∧ c ≤ 'f' then some (c.toNat - 'a'.toNat + 10)
  else if base = 16 ∧ 'A' ≤ c ∧ c ≤ 'F' then some (c.toNat - 'A'.toNat + 10)
  else none

/-- Longest prefix of digit values in the given base. -/
def leadingDigits (base : Nat) : List Char → List Nat
  | [] => []
  | c :: cs =>
    match jsDigitVal base c with
    | some d => d :: leadingDigits base cs
    | none => []

/-- Numeric value of a digit list, most significant first. -/
def natOfDigits (base : Nat) (ds : List Nat) : Nat :=
  ds.foldl (fun a d => a * base + d) 0

/-- Body of `parseInt` after sign handling: optional `0x`/`0X` prefix selects base 16,
then the longest digit prefix is converted; no digits means `NaN` (`none`). -/
def jsParseIntBody (sign : Int) (cs : List Char) : Option Int :=
  let p :=
    match cs with
    | '0' :: 'x' :: rest => (16, rest)
    | '0' :: 'X' :: rest => (16, rest)
    | _ => (10, cs)
  let ds := leadingDigits p.1 p.2
  if ds.isEmpty then none else some (sign * (natOfDigits p.1 ds : Int))

/-- ECMAScript `parseInt(s)` (radix argument omitted) on a character list. -/
def jsParseIntChars (cs : List Char) : Option Int :=
  match cs.dropWhile jsIsWhitespace with
  | '-' :: rest => jsParseIntBody (-1) rest
  | '+' :: rest => jsParseIntBody 1 rest
  | rest => jsParseIntBody 1 rest

/-- ECMAScript `parseInt(s)`; `none` models `NaN`. -/
def jsParseInt (s : String) : Option Int :=
  jsParseIntChars s.data

/-- Model of `parseInt(newEpSeason) || 1` — `NaN` and `0` are falsy and yield `1`. -/
def seasonNum (s : String) : Int :=
  match jsParseInt s with
  | none => 1
  | some n => if n = 0 then 1 else n

/-- The `Episode` record of `types.ts`. -/
structure Episode where
  id : String
  number : Int
  season : Int
  title : String
  duration : String
  telegramCode : String
  deriving DecidableEq, Repr

/-- Order produced by the JS comparator
`if (a.season !== b.season) return a.season - b.season; return a.number - b.number`:
`a` may come before `b` iff the comparator is non-positive. -/
def epLe (a b : Episode) : Prop :=
  a.season < b.season ∨ (a.season = b.season ∧ a.number ≤ b.number)

instance : DecidableRel epLe := fun a b => by
  unfold epLe; exact inferInstance

instance : IsTotal Episode epLe := ⟨by intro a b; unfold epLe; omega⟩

instance : IsTrans Episode epLe := ⟨by intro a b c; unfold epLe; omega⟩

/-- Model of `[...episodes, newEp].sort(comparator)`. -/
def sortEpisodes (l : List Episode) : List Episode :=
  List.insertionSort epLe l

/-- The component state used by the episode builder and publish handler
(the corresponding `useState` hooks of `AdminPanel`). -/
structure AdminState where
  title : String
  category : String
  thumbnail : String
  telegramCode : String
  year : String
  rating : String
  quality : String
  description : String
  episodes : List Episode
  newEpTitle : String
  newEpSeason : String
  newEpDuration : String
  newEpCode : String
  isEditing : Bool
  editId : Option String
  deriving DecidableEq, Repr

/-- The `useState` initial values of `AdminPanel`. -/
def initialState : AdminState :=
  { title := "", category := "Exclusive", thumbnail := "", telegramCode := "",
    year := "2024", rating := "9.0", quality := "4K HDR", description := "",
    episodes := [], newEpTitle := "", newEpSeason := "1", newEpDuration := "",
    newEpCode := "", isEditing := false, editId := none }

/-- Model of `handleAddEpisode`, with the fresh `id` (`Date.now().toString()` in the
source) supplied as a parameter. -/
def handleAddEpisode (freshId : String) (st : AdminState) : AdminState :=
  if st.newEpTitle = "" ∨ st.newEpCode = "" then st
  else
    let seasonN := seasonNum st.newEpSeason
    let newEp : Episode :=
      { id := freshId,
        number := ((st.episodes.filter (fun e => e.season == seasonN)).length : Int) + 1,
        season := seasonN,
        title := st.newEpTitle,
        duration := if st.newEpDuration = "" then "N/A" else st.newEpDuration,
        telegramCode := st.newEpCode }
    { st with
        episodes := sortEpisodes (st.episodes ++ [newEp]),
        newEpTitle := "",
        newEpDuration := "",
        newEpCode := "" }

/-- Model of `removeEpisode`. -/
def removeEpisode (id : String) (st : AdminState) : AdminState :=
  { st with episodes := st.episodes.filter (fun ep => ep.id != id) }

/-- Model of `resetForm`. -/
def resetForm (st : AdminState) : AdminState :=
  { st with
      title := "", category := "Exclusive", thumbnail := "",
      telegramCode := "", year := "2024", rating := "9.0", quality := "4K HDR",
      description := "", episodes := [], newEpSeason := "1",
      isEditing := false, editId := none }

/-- The record assembled by `handlePublish`.  The source stores
`rating: parseFloat(rating)` (an IEEE double); the raw text is kept here since
no claim concerns it.  `episodes := none` models the JSON `null` marker. -/
structure MovieData where
  title : String
  category : String
  thumbnail : String
  telegramCode : String
  year : String
  rating : String
  quality : String
  description : String
  episodes : Option (List Episode)
  deriving DecidableEq, Repr

/-- The `movieData` object literal of `handlePublish`. -/
def buildMovieData (st : AdminState) : MovieData :=
  { title := st.title, category := st.category, thumbnail := st.thumbnail,
    telegramCode := st.telegramCode, year := st.year, rating := st.rating,
    quality := st.quality, description := st.description,
    episodes := if st.episodes.length > 0 then some st.episodes else none }

/-- Model of `handlePublish`.  `gatewayOk` is the outcome of the external persistence
call (`addDoc`/`updateDoc`); the returned option is the record handed to the
gateway (`none` when validation rejected the submission before any call). -/
def handlePublish (gatewayOk : Bool) (st : AdminState) : AdminState × Option MovieData :=
  if st.title = "" ∨ st.thumbnail = "" ∨ (st.telegramCode = "" ∧ st.episodes.length = 0) then
    (st, none)
  else
    let movieData := buildMovieData st
    if gatewayOk then (resetForm st, some movieData) else (st, some movieData)

/-- One operator action on the episode builder. -/
inductive Op where
  | add (freshId season title duration code : String)
  | remove (id : String)
  deriving DecidableEq, Repr

/-- Run one action: an `add` types the four input fields and clicks the add
button (`handleAddEpisode`); a `remove` clicks an episode's delete button. -/
def applyOp (st : AdminState) : Op → AdminState
  | .add freshId season title duration code =>
      handleAddEpisode freshId
        { st with newEpSeason := season, newEpTitle := title,
                  newEpDuration := duration, newEpCode := code }
  | .remove id => removeEpisode id st

/-- Run a sequence of operator actions. -/
def runOps (ops : List Op) (st : AdminState) : AdminState :=
  ops.foldl applyOp st

/-- Input of one `add` action (fresh id plus the four typed fields). -/
structure AddInput where
  freshId : String
  season : String
  title : String
  duration : String
  code : String
  deriving DecidableEq, Repr

/-- Perform one `add` action. -/
def applyAdd (st : AdminState) (i : AddInput) : AdminState :=
  applyOp st (.add i.freshId i.season i.title i.duration i.code)

/-- Perform a sequence of `add` actions. -/
def runAdds (inputs : List AddInput) (st : AdminState) : AdminState :=
  inputs.foldl applyAdd st

/-- The list `[1, 2, ..., k]` as integers. -/
def intRange (k : Nat) : List Int :=
  (List.range' 1 k).map (Nat.cast : Nat → Int)

/-- The `number` values of the episodes of season `s`, in list order. -/
def seasonNumbers (l : List Episode) (s : Int) : List Int :=
  (l.filter (fun e => e.season == s)).map (fun e => e.number)

/-- Dense per-season numbering: for each season, the multiset of `number`
values is exactly `{1, ..., K}` where `K` is the season's episode count. -/
def DensePerSeason (l : List Episode) : Prop :=
  ∀ s : Int, List.Perm (seasonNumbers l s) (intRange (l.countP (fun e => e.season == s)))

/-- The scenario of the spec's removal/renumbering discussion: two episodes
added to season 1, the one numbered 1 removed, then a third added to
season 1. -/
def renumberScenario : List Op :=
  [.add "a" "1" "E1" "" "c1", .add "b" "1" "E2" "" "c2",
   .remove "a", .add "c" "1" "E3" "" "c3"]

/-- C3: `handlePublish` rejects the submission (makes no gateway call) iff the
title is empty, or the thumbnail is empty, or both the delivery code and the
episode list are empty. -/
theorem publish_validation_iff (gatewayOk : Bool) (st : AdminState) :
    (handlePublish gatewayOk st).2 = none ↔
      (st.title = "" ∨ st.thumbnail = "" ∨ (st.telegramCode = "" ∧ st.episodes = [])) := by
  unfold handlePublish
  split
  · next h =>
    simp only [List.length_eq_zero] at h
    simpa using h
  · next h =>
    simp only [List.length_eq_zero] at h
    constructor
    · intro hc
      exfalso
      cases gatewayOk <;> simp at hc
    · intro hc
      exact absurd hc h

/-- C7: invoking `handleAddEpisode` with an empty pending title or an empty
pending delivery code leaves the entire state (in particular the episode
list) unchanged. -/
theorem add_empty_input_noop (freshId : String) (st : AdminState)
    (h : st.newEpTitle = "" ∨ st.newEpCode = "") :
    handleAddEpisode freshId st = st := by
  unfold handleAddEpisode
  rw [if_pos h]

/-- Witness for C7 at a concrete state. -/
theorem add_empty_input_noop_witness :
    handleAddEpisode "99" initialState = initialState :=
  add_empty_input_noop "99" initialState (Or.inl rfl)

/-- C10: a successful `handleAddEpisode` clears the pending episode title,
duration and code inputs and keeps the pending season input unchanged. -/
theorem add_clears_pending_inputs (freshId : String) (st : AdminState)
    (h1 : st.newEpTitle ≠ "") (h2 : st.newEpCode ≠ "") :
    (handleAddEpisode freshId st).newEpTitle = "" ∧
    (handleAddEpisode freshId st).newEpDuration = "" ∧
    (handleAddEpisode freshId st).newEpCode = "" ∧
    (handleAddEpisode freshId st).newEpSeason = st.newEpSeason := by
  unfold handleAddEpisode
  rw [if_neg (not_or.mpr ⟨h1, h2⟩)]
  exact ⟨rfl, rfl, rfl, rfl⟩

/-- Witness for C10 at a concrete state. -/
theorem add_clears_pending_inputs_witness :
    (handleAddEpisode "7" { initialState with newEpTitle := "Pilot", newEpCode := "X1" }).newEpTitle = "" ∧
    (handleAddEpisode "7" { initialState with newEpTitle := "Pilot", newEpCode := "X1" }).newEpDuration = "" ∧
    (handleAddEpisode "7" { initialState with newEpTitle := "Pilot", newEpCode := "X1" }).newEpCode = "" ∧
    (handleAddEpisode "7" { initialState with newEpTitle := "Pilot", newEpCode := "X1" }).newEpSeason =
      ({ initialState with newEpTitle := "Pilot", newEpCode := "X1" } : AdminState).newEpSeason :=
  add_clears_pending_inputs "7" _ (by decide) (by decide)

/-- C8: a publish attempt whose gateway call fails leaves the session state
(form fields and episode list) unchanged, and a successful publish of a
submission that passes validation resets the form. -/
theorem publish_failure_preserves_state (st : AdminState) :
    (handlePublish false st).1 = st ∧
    (¬(st.title = "" ∨ st.thumbnail = "" ∨ (st.telegramCode = "" ∧ st.episodes.length = 0)) →
      (handlePublish true st).1 = resetForm st) := by
  constructor
  · unfold handlePublish
    split
    · rfl
    · rfl
  · intro h
    unfold handlePublish
    rw [if_neg h]
    rfl

/-- Witness for C8 at a concrete state that passes validation. -/
theorem publish_failure_preserves_state_witness :
    (handlePublish false { initialState with title := "T", thumbnail := "U", telegramCode := "C" }).1 =
      { initialState with title := "T", thumbnail := "U", telegramCode := "C" } ∧
    (handlePublish true { initialState with title := "T", thumbnail := "U", telegramCode := "C" }).1 =
      resetForm { initialState with title := "T", thumbnail := "U", telegramCode := "C" } :=
  ⟨(publish_failure_preserves_state _).1,
   (publish_failure_preserves_state _).2 (by decide)⟩

/-- C9: the `episodes` field of the record built by `handlePublish` is the
current episode list when that list is non-empty and the `null` marker
(`none`) otherwise; it is never `some []`, so the marker is distinct from the
empty list. -/
theorem publish_record_episodes_marker (gatewayOk : Bool) (st : AdminState)
    (md : MovieData) (h : (handlePublish gatewayOk st).2 = some md) :
    (st.episodes ≠ [] → md.episodes = some st.episodes) ∧
    (st.episodes = [] → md.episodes = none) ∧
    md.episodes ≠ some [] := by
  have hmd : md = buildMovieData st := by
    unfold handlePublish at h
    split at h
    · exact absurd h (by simp)
    · cases gatewayOk <;> simpa using h.symm
  subst hmd
  refine ⟨fun hne => ?_, fun he => ?_, ?_⟩
  · unfold buildMovieData
    simp only
    rw [if_pos (List.length_pos.mpr hne)]
  · simp [buildMovieData, he]
  · by_cases he : st.episodes = []
    · simp [buildMovieData, he]
    · unfold buildMovieData
      simp only
      rw [if_pos (List.length_pos.mpr he)]
      simp [he]

/-- Witness for C9 at a concrete state (non-empty code, empty episode list). -/
theorem publish_record_episodes_marker_witness :
    (({ initialState with title := "T", thumbnail := "U", telegramCode := "C" } : AdminState).episodes ≠ [] →
      (buildMovieData { initialState with title := "T", thumbnail := "U", telegramCode := "C" }).episodes =
        some ({ initialState with title := "T", thumbnail := "U", telegramCode := "C" } : AdminState).episodes) ∧
    (({ initialState with title := "T", thumbnail := "U", telegramCode := "C" } : AdminState).episodes = [] →
      (buildMovieData { initialState with title := "T", thumbnail := "U", telegramCode := "C" }).episodes = none) ∧
    (buildMovieData { initialState with title := "T", thumbnail := "U", telegramCode := "C" }).episodes ≠ some [] :=
  publish_record_episodes_marker true _ _ (by decide)

/-- C6 counterexample: an `add` whose season input is `"-1"` stores the
season `-1`, which is not a positive integer and is not coerced to `1`. -/
theorem add_negative_season_counterexample :
    ((applyAdd initialState
        { freshId := "i1", season := "-1", title := "T", duration := "", code := "C" }).episodes.map
      (fun e => e.season)) = [-1] ∧
    ¬(∀ e ∈ (applyAdd initialState
        { freshId := "i1", season := "-1", title := "T", duration := "", code := "C" }).episodes,
        0 < e.season) := by
  constructor
  · decide
  · decide

/-- C5 counterexample: in the add-add-remove-add scenario the final list is
not `[(season 1, number 2), (season 1, number 3)]` — no episode receives
number 3. -/
theorem remove_then_add_counterexample :
    ((runOps renumberScenario initialState).episodes.map (fun e => (e.season, e.number))) ≠
      [(1, 2), (1, 3)] := by
  decide

/-- C5 amended: the third add computes its number as (current season-1 count)
+ 1 = 2, so the final list carries the duplicate pair (1, 2) twice. -/
theorem remove_then_add_number_reused :
    ((runOps renumberScenario initialState).episodes.map (fun e => (e.season, e.number))) =
      [(1, 2), (1, 2)] := by
  decide

/-- C4 counterexample: the add-add-remove-add scenario reaches a list whose
(season, number) pairs are not pairwise distinct. -/
theorem pair_uniqueness_counterexample :
    ¬(((runOps renumberScenario initialState).episodes.map
        (fun e => (e.season, e.number))).Nodup) := by
  decide

/-- Insertion sort with `epLe` produces a list sorted by (season, number). -/
theorem sortEpisodes_sorted (l : List Episode) :
    List.Sorted epLe (sortEpisodes l) :=
  List.sorted_insertionSort epLe l

/-- Sorting permutes the list. -/
theorem sortEpisodes_perm (l : List Episode) :
    List.Perm (sortEpisodes l) l :=
  List.perm_insertionSort epLe l

/-- Every operator action keeps the episode list sorted by (season, number). -/
theorem applyOp_sorted (st : AdminState) (op : Op)
    (h : List.Sorted epLe st.episodes) :
    List.Sorted epLe ((applyOp st op).episodes) := by
  cases op with
  | add freshId season title duration code =>
    show List.Sorted epLe ((handleAddEpisode freshId _).episodes)
    unfold handleAddEpisode
    split
    · exact h
    · exact sortEpisodes_sorted _
  | remove id =>
    exact List.Pairwise.sublist (List.filter_sublist st.episodes) h

/-- Every reachable run of actions keeps the episode list sorted. -/
theorem runOps_sorted (ops : List Op) (st : AdminState)
    (h : List.Sorted epLe st.episodes) :
    List.Sorted epLe ((runOps ops st).episodes) := by
  induction ops generalizing st with
  | nil => exact h
  | cons op ops ih => exact ih (applyOp st op) (applyOp_sorted st op h)

/-- C2: starting from the initial empty list, the episode list is sorted by
(season ascending, number ascending) after every sequence of add/remove
actions (so in particular after every add), and a remove leaves the remaining
elements as a sublist of the previous list, preserving their relative
order. -/
theorem list_sorted_and_remove_preserves_order :
    (∀ ops : List Op, List.Sorted epLe ((runOps ops initialState).episodes)) ∧
    (∀ (st : AdminState) (id : String),
      ((removeEpisode id st).episodes).Sublist st.episodes) :=
  ⟨fun ops => runOps_sorted ops initialState List.sorted_nil,
   fun st _ => List.filter_sublist st.episodes⟩

/-- Appending the next integer extends the integer range by one. -/
theorem intRange_succ (k : Nat) : intRange (k + 1) = intRange k ++ [(k : Int) + 1] := by
  unfold intRange
  rw [List.range'_concat, List.map_append]
  congr 1
  simp only [List.map_cons, List.map_nil, List.cons.injEq, and_true]
  push_cast
  ring

/-- The integer range is sorted. -/
theorem intRange_sorted (k : Nat) : List.Sorted (· ≤ ·) (intRange k) := by
  unfold intRange
  exact List.Pairwise.map (Nat.cast : Nat → Int) (fun a b h => by omega)
    (List.pairwise_le_range' 1 k)

/-- The integer range has no duplicates. -/
theorem intRange_nodup (k : Nat) : (intRange k).Nodup := by
  unfold intRange
  exact List.Nodup.map (fun a b h => by exact_mod_cast h) (List.nodup_range' 1 k)

/-- Permuting the episode list permutes each season's numbers. -/
theorem seasonNumbers_perm {l l' : List Episode} (h : List.Perm l l') (s : Int) :
    List.Perm (seasonNumbers l s) (seasonNumbers l' s) :=
  List.Perm.map _ (List.Perm.filter _ h)

/-- Dense per-season numbering is invariant under permutation. -/
theorem densePerSeason_perm {l l' : List Episode} (h : List.Perm l l')
    (hd : DensePerSeason l) : DensePerSeason l' := by
  intro s
  rw [← List.Perm.countP_eq _ h]
  exact (seasonNumbers_perm h s).symm.trans (hd s)

/-- Season numbers distribute over list append. -/
theorem seasonNumbers_append (l₁ l₂ : List Episode) (s : Int) :
    seasonNumbers (l₁ ++ l₂) s = seasonNumbers l₁ s ++ seasonNumbers l₂ s := by
  unfold seasonNumbers
  rw [List.filter_append, List.map_append]

/-- Appending one episode whose number is its season's count plus one keeps
the per-season numbering dense. -/
theorem dense_append_new (l : List Episode) (ep : Episode)
    (hnum : ep.number = (l.countP (fun e => e.season == ep.season) : Int) + 1)
    (hd : DensePerSeason l) : DensePerSeason (l ++ [ep]) := by
  intro s
  rw [seasonNumbers_append, List.countP_append]
  by_cases hs : ep.season = s
  · subst hs
    have h1 : seasonNumbers [ep] ep.season = [ep.number] := by
      simp [seasonNumbers]
    have h2 : List.countP (fun e => e.season == ep.season) [ep] = 1 := by
      simp
    rw [h1, h2, intRange_succ, hnum]
    exact List.Perm.append_right _ (hd ep.season)
  · have h1 : seasonNumbers [ep] s = [] := by
      simp [seasonNumbers, hs]
    have h2 : List.countP (fun e => e.season == s) [ep] = 0 := by
      simp [hs]
    rw [h1, h2, List.append_nil, Nat.add_zero]
    exact hd s

/-- A successful or failed `handleAddEpisode` keeps per-season numbering
dense: the new episode's number is the current count of its season plus
one. -/
theorem handleAddEpisode_dense (freshId : String) (st : AdminState)
    (hd : DensePerSeason st.episodes) :
    DensePerSeason ((handleAddEpisode freshId st).episodes) := by
  unfold handleAddEpisode
  split
  · exact hd
  · refine densePerSeason_perm (sortEpisodes_perm _).symm ?_
    refine dense_append_new _ _ ?_ hd
    simp [List.countP_eq_length_filter]

/-- Running one `add` action preserves dense per-season numbering. -/
theorem applyAdd_dense (st : AdminState) (i : AddInput)
    (hd : DensePerSeason st.episodes) :
    DensePerSeason ((applyAdd st i).episodes) :=
  handleAddEpisode_dense i.freshId _ hd

/-- Running any sequence of `add` actions preserves dense per-season
numbering. -/
theorem runAdds_dense (inputs : List AddInput) (st : AdminState)
    (hd : DensePerSeason st.episodes) :
    DensePerSeason ((runAdds inputs st).episodes) := by
  induction inputs generalizing st with
  | nil => exact hd
  | cons i is ih => exact ih _ (applyAdd_dense st i hd)

/-- Running any sequence of `add` actions keeps the list sorted. -/
theorem runAdds_sorted (inputs : List AddInput) (st : AdminState)
    (h : List.Sorted epLe st.episodes) :
    List.Sorted epLe ((runAdds inputs st).episodes) := by
  induction inputs generalizing st with
  | nil => exact h
  | cons i is ih =>
    exact ih _ (applyOp_sorted st (.add i.freshId i.season i.title i.duration i.code) h)

/-- One well-formed `add` action increments exactly its parsed season's
episode count. -/
theorem applyAdd_countP (st : AdminState) (i : AddInput)
    (h1 : i.title ≠ "") (h2 : i.code ≠ "") (s : Int) :
    ((applyAdd st i).episodes).countP (fun e => e.season == s) =
      st.episodes.countP (fun e => e.season == s) +
        (if seasonNum i.season = s then 1 else 0) := by
  simp only [applyAdd, applyOp]
  unfold handleAddEpisode
  dsimp only
  rw [if_neg (not_or.mpr ⟨h1, h2⟩)]
  dsimp only
  rw [List.Perm.countP_eq _ (sortEpisodes_perm _), List.countP_append]
  by_cases hs : seasonNum i.season = s
  · simp [hs]
  · simp [hs]

/-- Running a sequence of well-formed `add` actions makes each season's
episode count the previous count plus the number of adds parsed to that
season. -/
theorem runAdds_countP (inputs : List AddInput) (st : AdminState)
    (h : ∀ i ∈ inputs, i.title ≠ "" ∧ i.code ≠ "") (s : Int) :
    ((runAdds inputs st).episodes).countP (fun e => e.season == s) =
      st.episodes.countP (fun e => e.season == s) +
        inputs.countP (fun i => seasonNum i.season == s) := by
  induction inputs generalizing st with
  | nil => simp [runAdds]
  | cons i is ih =>
    have hi := h i (List.mem_cons_self i is)
    have hrest : ∀ j ∈ is, j.title ≠ "" ∧ j.code ≠ "" :=
      fun j hj => h j (List.mem_cons_of_mem i hj)
    show ((runAdds is (applyAdd st i)).episodes).countP _ = _
    rw [ih (applyAdd st i) hrest, applyAdd_countP st i hi.1 hi.2 s, List.countP_cons]
    by_cases hs : seasonNum i.season = s
    · simp only [hs]
      simp
      omega
    · simp [hs]

/-- In a list sorted by (season, number), the numbers of any one season are
sorted. -/
theorem seasonNumbers_sorted (l : List Episode) (s : Int)
    (h : List.Sorted epLe l) :
    List.Sorted (· ≤ ·) (seasonNumbers l s) := by
  unfold seasonNumbers
  have h1 : List.Pairwise epLe (l.filter (fun e => e.season == s)) :=
    List.Pairwise.sublist (List.filter_sublist l) h
  have h2 : List.Pairwise (fun a b : Episode => a.number ≤ b.number)
      (l.filter (fun e => e.season == s)) := by
    refine List.Pairwise.imp_of_mem ?_ h1
    intro a b ha hb hab
    have has : a.season = s := by simpa using (List.mem_filter.mp ha).2
    have hbs : b.season = s := by simpa using (List.mem_filter.mp hb).2
    rcases hab with hlt | ⟨_, hle⟩
    · omega
    · exact hle
  exact List.Pairwise.map _ (fun a b hab => hab) h2

/-- C1: after any sequence of well-formed adds (non-empty title and code, no
removes) starting from the empty list, the numbers of each season, read in
list order, are exactly 1..K where K is the number of adds parsed to that
season. -/
theorem adds_dense_per_season (inputs : List AddInput)
    (h : ∀ i ∈ inputs, i.title ≠ "" ∧ i.code ≠ "") (s : Int) :
    seasonNumbers (runAdds inputs initialState).episodes s =
      intRange (inputs.countP (fun i => seasonNum i.season == s)) := by
  have hd0 : DensePerSeason initialState.episodes := by
    intro s'
    simp [initialState, seasonNumbers, intRange]
  have hperm := runAdds_dense inputs initialState hd0 s
  rw [runAdds_countP inputs initialState h s] at hperm
  simp only [initialState, List.countP_nil, Nat.zero_add] at hperm
  exact List.eq_of_perm_of_sorted hperm
    (seasonNumbers_sorted _ s (runAdds_sorted inputs initialState List.sorted_nil))
    (intRange_sorted _)

/-- Witness for C1: two adds to season 1 yield season-1 numbers [1, 2]. -/
theorem adds_dense_per_season_witness :
    seasonNumbers
        (runAdds [⟨"a", "1", "E1", "", "c1"⟩, ⟨"b", "1", "E2", "", "c2"⟩]
          initialState).episodes 1 =
      intRange (([⟨"a", "1", "E1", "", "c1"⟩, ⟨"b", "1", "E2", "", "c2"⟩] :
          List AddInput).countP (fun i => seasonNum i.season == 1)) :=
  adds_dense_per_season _ (by decide) 1

/-- Splitting a season's numbers at the head of the episode list. -/
theorem seasonNumbers_cons (e : Episode) (t : List Episode) (s : Int) :
    seasonNumbers (e :: t) s =
      (if e.season = s then [e.number] else []) ++ seasonNumbers t s := by
  unfold seasonNumbers
  rw [List.filter_cons]
  by_cases hs : e.season = s
  · simp [hs]
  · simp [hs]

/-- If every season's numbers are duplicate-free, the (season, number) pairs
are pairwise distinct. -/
theorem pairs_nodup_of_forall_nodup (l : List Episode)
    (h : ∀ s : Int, (seasonNumbers l s).Nodup) :
    (l.map (fun e => (e.season, e.number))).Nodup := by
  induction l with
  | nil => simp
  | cons e t ih =>
    rw [List.map_cons, List.nodup_cons]
    constructor
    · intro hmem
      obtain ⟨e', he't, hpair⟩ := List.mem_map.mp hmem
      have hs : e'.season = e.season := congrArg Prod.fst hpair
      have hn : e'.number = e.number := congrArg Prod.snd hpair
      have h1 := h e.season
      rw [seasonNumbers_cons, if_pos rfl] at h1
      have h2 : e.number ∉ seasonNumbers t e.season :=
        (List.nodup_cons.mp (by simpa using h1)).1
      apply h2
      rw [← hn]
      exact List.mem_map_of_mem _ (List.mem_filter.mpr ⟨he't, by simp [hs]⟩)
    · refine ih ?_
      intro s
      have h1 := h s
      rw [seasonNumbers_cons] at h1
      by_cases hs : e.season = s
      · rw [if_pos hs] at h1
        exact (List.nodup_cons.mp (by simpa using h1)).2
      · rw [if_neg hs] at h1
        simpa using h1

/-- Dense per-season numbering forces pairwise-distinct (season, number)
pairs. -/
theorem densePerSeason_nodup (l : List Episode) (hd : DensePerSeason l) :
    (l.map (fun e => (e.season, e.number))).Nodup :=
  pairs_nodup_of_forall_nodup l
    (fun s => List.Perm.nodup (hd s).symm (intRange_nodup _))

/-- C4 amended: after any sequence of add actions alone (no removes) from the
empty list, the (season, number) pairs of the episode list are pairwise
distinct.  (With removes interleaved this fails, see the counterexample.) -/
theorem add_only_pairs_distinct (inputs : List AddInput) :
    (((runAdds inputs initialState).episodes).map
      (fun e => (e.season, e.number))).Nodup :=
  densePerSeason_nodup _
    (runAdds_dense inputs initialState
      (by intro s'; simp [initialState, seasonNumbers, intRange]))

/-- An episode appended before sorting is a member of the sorted result. -/
theorem mem_sortEpisodes_append (l : List Episode) (ep : Episode) :
    ep ∈ sortEpisodes (l ++ [ep]) :=
  (sortEpisodes_perm (l ++ [ep])).symm.subset
    (List.mem_append_right l (List.mem_singleton_self ep))

/-- C6 amended: a successful add stores an episode whose season is
`seasonNum` of the season input: the parsed value when `parseInt` yields a
non-zero integer (including negative ones), and `1` when `parseInt` fails or
yields `0`. -/
theorem add_stores_parsed_season (freshId : String) (st : AdminState)
    (h1 : st.newEpTitle ≠ "") (h2 : st.newEpCode ≠ "") :
    ∃ ep ∈ (handleAddEpisode freshId st).episodes,
      ep.id = freshId ∧ ep.season = seasonNum st.newEpSeason ∧
      (∀ k : Int, jsParseInt st.newEpSeason = some k → k ≠ 0 → ep.season = k) ∧
      ((jsParseInt st.newEpSeason = none ∨ jsParseInt st.newEpSeason = some 0) →
        ep.season = 1) := by
  unfold handleAddEpisode
  rw [if_neg (not_or.mpr ⟨h1, h2⟩)]
  refine ⟨_, mem_sortEpisodes_append st.episodes _, rfl, rfl, ?_, ?_⟩
  · intro k hk hk0
    show seasonNum st.newEpSeason = k
    unfold seasonNum
    rw [hk]
    simp [hk0]
  · rintro (hk | hk)
    · show seasonNum st.newEpSeason = 1
      unfold seasonNum
      rw [hk]
    · show seasonNum st.newEpSeason = 1
      unfold seasonNum
      rw [hk]
      simp

/-- Witness for C6 amended at a concrete state with season input `"2"`. -/
theorem add_stores_parsed_season_witness :
    ∃ ep ∈ (handleAddEpisode "5"
        { initialState with newEpTitle := "T", newEpSeason := "2", newEpCode := "C" }).episodes,
      ep.id = "5" ∧ ep.season = seasonNum "2" ∧
      (∀ k : Int, jsParseInt "2" = some k → k ≠ 0 → ep.season = k) ∧
      ((jsParseInt "2" = none ∨ jsParseInt "2" = some 0) → ep.season = 1) :=
  add_stores_parsed_season "5" _ (by decide) (by decide)
